import Mathlib

/-!
Verification of the wiki-parser script (`run.py`): a shallow embedding of its
date validation, per-day fetching, dataframe aggregation and output effects,
together with theorems checking the specification's claims.
-/

namespace WikiParser

/-! Section: definitions -/


/-! Section: Calendar model

Python `datetime.date` values, with `Date.toOrdinal` embedding
`date.toordinal()` (proleptic Gregorian day number, `0001-01-01` ↦ 1).
Date comparison and `timedelta.days` in the script are day-number
comparison and subtraction.  -/

structure Date where
  year : Nat
  month : Nat
  day : Nat
deriving DecidableEq, Repr

def isLeap (y : Nat) : Bool :=
  (y % 4 == 0 && y % 100 != 0) || y % 400 == 0

def daysInMonth (y m : Nat) : Nat :=
  if m = 2 then (if isLeap y then 29 else 28)
  else if m = 4 ∨ m = 6 ∨ m = 9 ∨ m = 11 then 30
  else 31

/-- Total days in months `1..m` of year `y`. -/

def cumDays (y : Nat) : Nat → Nat
  | 0 => 0
  | m + 1 => cumDays y m + daysInMonth y (m + 1)

/-- Days in all years strictly before year `y` (years `1..y-1`). -/

def daysBeforeYear (y : Nat) : Nat :=
  365 * (y - 1) + ((y - 1) / 4 - (y - 1) / 100) + (y - 1) / 400

/-- Embedding of Python `date.toordinal()`. -/

def Date.toOrdinal (d : Date) : Nat :=
  daysBeforeYear d.year + cumDays d.year (d.month - 1) + d.day

/-- The dates `datetime.date` can actually represent (constructor validation). -/

def Date.Valid (d : Date) : Prop :=
  1 ≤ d.year ∧ 1 ≤ d.month ∧ d.month ≤ 12 ∧ 1 ≤ d.day ∧ d.day ≤ daysInMonth d.year d.month

instance (d : Date) : Decidable d.Valid := by
  unfold Date.Valid; infer_instance

/-- The next calendar day (what advancing a daily `pd.date_range` does). -/

def nextDate (d : Date) : Date :=
  if d.day < daysInMonth d.year d.month then ⟨d.year, d.month, d.day + 1⟩
  else if d.month < 12 then ⟨d.year, d.month + 1, 1⟩
  else ⟨d.year + 1, 1, 1⟩

/-! Section: `pd.date_range(start, end, freq='D')`

Daily range, inclusive of both endpoints; empty when `start > end`. -/

def dateRangeAux : Nat → Date → List Date
  | 0, d => [d]
  | n + 1, d => d :: dateRangeAux n (nextDate d)

def date_range (s e : Date) : List Date :=
  if s.toOrdinal ≤ e.toOrdinal then dateRangeAux (e.toOrdinal - s.toOrdinal) s else []

/-! Section: String formatting

`decDigit`, `format2`, `format4` embed zero-padded decimal printing as done
by `strftime` codes `%m`/`%d` (two digits, values < 100 in every reachable
call) and `%Y` (four digits, values `1000..9999` in every reachable call). -/

def decDigit (k : Nat) : Char := Char.ofNat (48 + k % 10)

def format2 (n : Nat) : String := String.mk [decDigit (n / 10), decDigit n]

def format4 (n : Nat) : String :=
  String.mk [decDigit (n / 1000), decDigit (n / 100), decDigit (n / 10), decDigit n]

/-- Embedding of `f'\x7bdate:%Y/%m/%d\x7d'`. -/

def Date.fmtSlash (d : Date) : String :=
  format4 d.year ++ "/" ++ format2 d.month ++ "/" ++ format2 d.day

/-- Embedding of printing a `datetime.date`: ISO `YYYY-MM-DD`. -/

def Date.fmtIso (d : Date) : String :=
  format4 d.year ++ "-" ++ format2 d.month ++ "-" ++ format2 d.day

/-! Section: `datetime.strptime(s, '%Y%m%d').date()`

CPython compiles `%Y%m%d` to the regex `(?P<Y>\d\d\d\d)(?P<m>1[0-2]|0[1-9]|[1-9])
(?P<d>3[01]|[12]\d|0[1-9]|[1-9])`, matched against the whole string with
leftmost-alternative backtracking, then calls the `datetime` constructor,
which validates the ranges again.  `digitVal`/`twoDigitVal` read the captured
digits; the length-3 case encodes the backtracking (two-digit month tried
first, falling back to a one-digit month). -/

def digitVal (c : Char) : Nat := c.toNat - 48

def twoDigitVal (a b : Char) : Nat := 10 * digitVal a + digitVal b

def parseMonthDay (rest : List Char) : Option (Nat × Nat) :=
  match rest with
  | [a, b] =>
    if 1 ≤ digitVal a ∧ 1 ≤ digitVal b then some (digitVal a, digitVal b) else none
  | [a, b, c] =>
    if 1 ≤ twoDigitVal a b ∧ twoDigitVal a b ≤ 12 ∧ 1 ≤ digitVal c then
      some (twoDigitVal a b, digitVal c)
    else if 1 ≤ digitVal a ∧ 1 ≤ twoDigitVal b c ∧ twoDigitVal b c ≤ 31 then
      some (digitVal a, twoDigitVal b c)
    else none
  | [a, b, c, d] =>
    if 1 ≤ twoDigitVal a b ∧ twoDigitVal a b ≤ 12 ∧
        1 ≤ twoDigitVal c d ∧ twoDigitVal c d ≤ 31 then
      some (twoDigitVal a b, twoDigitVal c d)
    else none
  | _ => none

/-- The `datetime(year, month, day)` constructor: range validation. -/

def mkValidatedDate (y m dd : Nat) : Option Date :=
  if 1 ≤ y ∧ y ≤ 9999 ∧ 1 ≤ m ∧ m ≤ 12 ∧ 1 ≤ dd ∧ dd ≤ daysInMonth y m then
    some ⟨y, m, dd⟩
  else none

def strptimeYmd (s : String) : Option Date :=
  if s.data.all Char.isDigit then
    match s.data with
    | y1 :: y2 :: y3 :: y4 :: rest =>
      match parseMonthDay rest with
      | some (m, dd) =>
        mkValidatedDate
          (1000 * digitVal y1 + 100 * digitVal y2 + 10 * digitVal y3 + digitVal y4) m dd
      | none => none
    | _ => none
  else none

/-! Section: Module constants (`run.py` lines 11-16) -/

def API_BASE_URL : String := "https://wikimedia.org/api/rest_v1/metrics/pageviews/top"

def API_START_DATE : Date := ⟨2015, 7, 1⟩

def PROJECT : String := "en.wikipedia.org"

def ACCESS_MODE : String := "all-access"

def TOP_ARTICLES_COUNT : Nat := 20

def MAX_DAYS_RANGE : Nat := 365

/-! Section: `validate_dates(start_str, end_str)`

`datetime.now().date()` is the model parameter `today`.  Comparison of
`datetime.date` values and `timedelta.days` are ordinal comparison and
subtraction. -/

def validate_dates (today : Date) (start_str end_str : String) : Option String :=
  match strptimeYmd start_str, strptimeYmd end_str with
  | some start_dt, some end_dt =>
    if today.toOrdinal ≤ start_dt.toOrdinal ∨ today.toOrdinal ≤ end_dt.toOrdinal then
      some (("Error: Dates must be strictly before ") ++ today.fmtIso ++
        (" (no today or future dates)"))
    else if end_dt.toOrdinal ≤ start_dt.toOrdinal then
      some ("Error: End date must be > start date")
    else if start_dt.toOrdinal < API_START_DATE.toOrdinal then
      some (("Error: Dates must be >= ") ++ API_START_DATE.fmtIso)
    else if MAX_DAYS_RANGE < end_dt.toOrdinal - start_dt.toOrdinal then
      some ("Error: Date range must be <= 365 days")
    else
      none
  | _, _ => some ("Error: Invalid date format. Use YYYYMMDD")

/-! Section: `fetch_daily_articles(date)`

One `requests.get` per call.  The network's behaviour for each date is an
oracle value; every branch of the `try`/`except` is a constructor. -/

structure Article where
  article : String
  views : Nat
deriving DecidableEq, Repr

/-- What the single `requests.get` of one call does. -/

inductive Response where
  /-- A 2xx status with a body in which the items/articles path exists. -/
  | ok (articles : List Article)
  /-- Status code 404. -/
  | notFound
  /-- A status that makes `raise_for_status()` raise (caught by `except Exception`). -/
  | httpError (code : Nat)
  /-- Body parsing or the items/articles access raises (caught by the bare except). -/
  | malformedBody
  /-- Raised timeout exception. -/
  | timeout
  /-- Raised connection error. -/
  | connectionError
  /-- Any other exception from `requests.get` (caught by `except Exception`). -/
  | otherError
deriving DecidableEq, Repr

def Response.isOk : Response → Bool
  | .ok _ => true
  | _ => false

def Oracle := Date → Response

def fetch_daily_articles (o : Oracle) (d : Date) : List Article :=
  match o d with
  | .ok arts => arts
  | _ => []

/-- The URL built on line 43: `f'{API_BASE_URL}/{PROJECT}/{ACCESS_MODE}/{date:%Y/%m/%d}'`. -/

def fetchUrl (d : Date) : String :=
  API_BASE_URL ++ "/" ++ PROJECT ++ "/" ++ ACCESS_MODE ++ "/" ++ d.fmtSlash

/-! Section: Observable effects -/

inductive Effect where
  | httpGet (url : String)
  | printOut (line : String)
  | printErr (line : String)
  | renderChart
  | saveFile (name : String)
  /-- An uncaught exception: the interpreter prints a traceback and the
  process dies; no further effect of any kind happens. -/
  | crash
deriving DecidableEq, Repr

def Effect.isHttpGet : Effect → Bool
  | .httpGet _ => true
  | _ => false

def httpGets (tr : List Effect) : List Effect := tr.filter Effect.isHttpGet

def savedFiles (tr : List Effect) : List String :=
  tr.flatMap fun ef =>
    match ef with
    | .saveFile n => [n]
    | _ => []

/-- Effects of one `fetch_daily_articles` call: exactly one `requests.get`,
plus the warning printed on the caught-exception branches.  The loop variable
is a pandas `Timestamp`, which prints as `YYYY-MM-DD 00:00:00`; the generic
branch's message continues with the exception's own text, which the oracle
does not carry and which is elided after the colon. -/

def fetchTrace (o : Oracle) (d : Date) : List Effect :=
  Effect.httpGet (fetchUrl d) ::
    (match o d with
     | .ok _ => []
     | .notFound => []
     | .timeout =>
       [Effect.printErr (("Warning: Timeout for date ") ++ d.fmtIso ++ (" 00:00:00"))]
     | .connectionError =>
       [Effect.printErr
         (("Warning: Connection error for date ") ++ d.fmtIso ++ (" 00:00:00"))]
     | _ =>
       [Effect.printErr
         (("Warning: Unexpected error for date ") ++ d.fmtIso ++ (" 00:00:00:"))])

/-! Section: `process_data(start_date, end_date)` -/

/-- One row of the dataframe built on line 80: a fetched article dict with the
`date` key added on line 74. -/

structure Row where
  article : String
  views : Nat
  date : Date
deriving DecidableEq, Repr

/-- The `articles` list accumulated by the fetch loop (lines 69-75). -/

def allRows (o : Oracle) (s e : Date) : List Row :=
  (date_range s e).flatMap fun d =>
    (fetch_daily_articles o d).map fun a => ⟨a.article, a.views, d⟩

/-- Embedding of the views-column maximum (the dataframe is non-empty when used). -/

def maxViews (rows : List Row) : Nat := (rows.map Row.views).foldl Nat.max 0

/-- The distinct dates appearing in the dataframe (the `groupby('date')` keys). -/

def distinctDates (rows : List Row) : List Date := (rows.map Row.date).dedup

/-- Embedding of the mean over date groups of summed views: total views divided by the
number of distinct dates present. -/

def meanDailyViews (rows : List Row) : Rat :=
  mkRat ((rows.map Row.views).sum : Int) (distinctDates rows).length

/-- The distinct article names (`groupby('article')` keys, insertion order). -/

def distinctArticles (rows : List Row) : List String := (rows.map Row.article).dedup

/-- Embedding of the distinct-article count. -/

def nuniqueArticles (rows : List Row) : Nat := (distinctArticles rows).length

/-- Embedding of the per-article views total, evaluated at one article name. -/

def totalViewsOf (rows : List Row) (a : String) : Nat :=
  ((rows.filter fun r => r.article == a).map Row.views).sum

/-- Lexicographic comparison of char lists by code point: Python's string
order, used by the pandas groupby key sort. -/

def charListLeb : List Char → List Char → Bool
  | [], _ => true
  | _ :: _, [] => false
  | a :: as, b :: bs =>
    if a.toNat < b.toNat then true
    else if b.toNat < a.toNat then false
    else charListLeb as bs

/-- Python string order (code-point lexicographic). -/

def nameLe (a b : String) : Prop := charListLeb a.data b.data = true

instance : DecidableRel nameLe := fun a b => by
  unfold nameLe; infer_instance

/-- The `groupby('article')` index: distinct names sorted ascending
(a stable sort; `insertionSort` is stable). -/

def sortedArticles (rows : List Row) : List String :=
  List.insertionSort (fun a b => nameLe a b) (distinctArticles rows)

/-- Line 89: `df.groupby('article')['views'].sum().nlargest(TOP_ARTICLES_COUNT).index`.
`nlargest` with the default `keep='first'` is a stable descending sort by
total views of the name-sorted series, truncated to the first 20;
`insertionSort` is exactly such a stable sort. -/

def topArticles (rows : List Row) : List String :=
  (List.insertionSort (fun a b => totalViewsOf rows b ≤ totalViewsOf rows a)
    (sortedArticles rows)).take TOP_ARTICLES_COUNT

/-- Lines 68-92 after `pd.date_range` has parsed the two argument strings
into dates: the body of `process_data` on the parsed range.  `none` models
the `(None, (None, None, None))` return; otherwise the pair is
`(df_top, (max, mean, nunique))`.  The parse step itself is `pdParseYmd`;
`process_data_strings` is the whole source function on its raw string
arguments. -/

def process_data (o : Oracle) (s e : Date) : Option (List Row × (Nat × Rat × Nat)) :=
  if (allRows o s e).isEmpty then none
  else
    some (((allRows o s e).filter fun r => (topArticles (allRows o s e)).contains r.article),
      (maxViews (allRows o s e), meanDailyViews (allRows o s e),
        nuniqueArticles (allRows o s e)))

/-- The date-string parsing `pd.date_range` applies to the raw argument
strings on line 68.  The strings reachable there are exactly the ones
`validate_dates` accepted, i.e. the decimal-digit strings of length 6 to 8
that `strptime('%Y%m%d')` parses.  Of those, pandas parses only the 8-digit
compact form `YYYYMMDD` (with the same range validation); on the 6- and
7-digit short forms, which only `strptime`'s backtracking regex accepts, its
parser raises `DateParseError` — modeled as `none`. -/
def pdParseYmd (s : String) : Option Date :=
  match s.data with
  | [y1, y2, y3, y4, m1, m2, d1, d2] =>
    if s.data.all Char.isDigit then
      mkValidatedDate
        (1000 * digitVal y1 + 100 * digitVal y2 + 10 * digitVal y3 + digitVal y4)
        (10 * digitVal m1 + digitVal m2) (10 * digitVal d1 + digitVal d2)
    else none
  | _ => none

/-- Lines 66-92 on the raw string arguments, as called from `main`
(run.py line 188): `pd.date_range` parses the strings first and raises an
uncaught `DateParseError` on the short forms (`Except.error`); otherwise the
function body runs on the parsed dates. -/
def process_data_strings (o : Oracle) (ss es : String) :
    Except Unit (Option (List Row × (Nat × Rat × Nat))) :=
  match pdParseYmd ss, pdParseYmd es with
  | some s, some e => Except.ok (process_data o s e)
  | _, _ => Except.error ()

/-- Effects of the fetch loop in `process_data`, once the range was built. -/

def process_data_trace (o : Oracle) (s e : Date) : List Effect :=
  (date_range s e).flatMap (fetchTrace o)

/-- Effects of a `process_data` call on the raw string arguments: if
`pd.date_range` cannot parse them it raises before any request is made. -/
def process_data_strings_trace (o : Oracle) (ss es : String) : List Effect :=
  match pdParseYmd ss, pdParseYmd es with
  | some s, some e => process_data_trace o s e
  | _, _ => [Effect.crash]

/-! Section: `create_visualization` and `main` -/

/-- Effects of `create_visualization` (lines 104-175): build the relplot,
save it to `top_articles.png`, print the confirmation line. -/

def create_visualization_trace : List Effect :=
  [Effect.renderChart, Effect.saveFile ("top_articles.png"),
   Effect.printOut ("Visualization saved to top_articles.png")]

/-- Effects of `main()` (lines 178-194), given the network oracle, the
current date and the two command-line arguments: validation first, then
`process_data` on the raw strings (whose `pd.date_range` parse can raise and
kill the run), then the no-data message or the visualization. -/

def main (o : Oracle) (today : Date) (start_str end_str : String) : List Effect :=
  match validate_dates today start_str end_str with
  | some msg => [Effect.printOut msg]
  | none =>
    process_data_strings_trace o start_str end_str ++
      (match process_data_strings o start_str end_str with
       | Except.error _ => []
       | Except.ok none => [Effect.printOut ("No data found for the specified date range")]
       | Except.ok (some _) => create_visualization_trace)

/-! Section: claims -/

/-- Digit character, written from the claim's words (zero-padded decimal). -/

def specDigitChar (k : Nat) : Char := Char.ofNat (48 + k)

/-- Zero-padded two-digit decimal, written from the claim's words. -/

def specPad2 (n : Nat) : String :=
  String.mk [specDigitChar (n / 10 % 10), specDigitChar (n % 10)]

/-- Zero-padded four-digit decimal, written from the claim's words. -/

def specPad4 (n : Nat) : String :=
  String.mk [specDigitChar (n / 1000 % 10), specDigitChar (n / 100 % 10),
    specDigitChar (n / 10 % 10), specDigitChar (n % 10)]

/-- The URL exactly as claim C6 spells it: the literal endpoint prefix for the
fixed project and access mode, followed by zero-padded `YYYY/MM/DD`. -/

def specTopUrl (y m d : Nat) : String :=
  ("https://wikimedia.org/api/rest_v1/metrics/pageviews/top/en.wikipedia.org/all-access/")
    ++ specPad4 y ++ "/" ++ specPad2 m ++ "/" ++ specPad2 d

/-- The validation sequence exactly as claim C4 spells it: the five checks in
the fixed order, returning the first failing check's message. -/

def firstFailingCheck (today : Date) (ss es : String) : Option String :=
  match strptimeYmd ss, strptimeYmd es with
  | none, _ => some ("Error: Invalid date format. Use YYYYMMDD")
  | _, none => some ("Error: Invalid date format. Use YYYYMMDD")
  | some s, some e =>
    if ¬ (s.toOrdinal < today.toOrdinal ∧ e.toOrdinal < today.toOrdinal) then
      some (("Error: Dates must be strictly before ") ++ today.fmtIso ++
        (" (no today or future dates)"))
    else if ¬ (s.toOrdinal < e.toOrdinal) then
      some ("Error: End date must be > start date")
    else if ¬ (API_START_DATE.toOrdinal ≤ s.toOrdinal) then
      some (("Error: Dates must be >= ") ++ API_START_DATE.fmtIso)
    else if ¬ (e.toOrdinal - s.toOrdinal ≤ MAX_DAYS_RANGE) then
      some ("Error: Date range must be <= 365 days")
    else none

/-! Section: the headline metrics (claim C8) -/

/-- Maximum single-row view count over a row list, written from the claim. -/

def specMaxRowViews (rows : List Row) : Nat :=
  rows.foldr (fun r acc => Nat.max r.views acc) 0

/-- Total views of the rows of one calendar day, written from the claim. -/

def perDayTotal (rows : List Row) (d : Date) : Nat :=
  ((rows.filter fun r => r.date == d).map Row.views).sum

/-- Mean over the days present of the per-day total views, written from the
claim. -/

def specMeanDailyTotal (rows : List Row) : Rat :=
  mkRat (((distinctDates rows).map (perDayTotal rows)).sum : Int)
    (distinctDates rows).length

/-- Number of distinct article names, written from the claim. -/

def specArticleCount (rows : List Row) : Nat := (rows.map Row.article).toFinset.card

/-! Section: theorems -/

theorem daysInMonth_pos (y m : Nat) : 1 ≤ daysInMonth y m := by
  unfold daysInMonth
  split
  · split <;> omega
  · split <;> omega

theorem cumDays_twelve (y : Nat) :
    cumDays y 12 = if isLeap y then 366 else 365 := by
  cases h : isLeap y <;>
    simp [cumDays, daysInMonth, h]

theorem daysBeforeYear_succ (y : Nat) (hy : 1 ≤ y) :
    daysBeforeYear (y + 1) = daysBeforeYear y + (if isLeap y then 366 else 365) := by
  obtain ⟨z, rfl⟩ : ∃ z, y = z + 1 := ⟨y - 1, by omega⟩
  unfold daysBeforeYear isLeap
  split <;> rename_i h <;>
  · simp only [Bool.or_eq_true, Bool.and_eq_true, beq_iff_eq, bne_iff_ne, ne_eq] at h
    omega

theorem nextDate_valid {d : Date} (hd : d.Valid) : (nextDate d).Valid := by
  obtain ⟨hy, hm1, hm2, hd1, hd2⟩ := hd
  unfold nextDate
  split
  · rename_i h
    exact ⟨hy, hm1, hm2, show 1 ≤ d.day + 1 by omega,
      show d.day + 1 ≤ daysInMonth d.year d.month by omega⟩
  · split
    · rename_i h h2
      exact ⟨hy, show 1 ≤ d.month + 1 by omega, show d.month + 1 ≤ 12 by omega,
        le_refl 1, show 1 ≤ daysInMonth d.year (d.month + 1) from daysInMonth_pos _ _⟩
    · exact ⟨show 1 ≤ d.year + 1 by omega, le_refl 1, show 1 ≤ 12 by omega,
        le_refl 1, show 1 ≤ daysInMonth (d.year + 1) 1 from daysInMonth_pos _ _⟩

theorem cumDays_succ_sub_one {y m : Nat} (hm : 1 ≤ m) :
    cumDays y m = cumDays y (m - 1) + daysInMonth y m := by
  obtain ⟨m', rfl⟩ : ∃ m', m = m' + 1 := ⟨m - 1, by omega⟩
  simp [cumDays]

theorem toOrdinal_nextDate {d : Date} (hd : d.Valid) :
    (nextDate d).toOrdinal = d.toOrdinal + 1 := by
  obtain ⟨hy, hm1, hm2, hd1, hd2⟩ := hd
  unfold nextDate
  split
  · show daysBeforeYear d.year + cumDays d.year (d.month - 1) + (d.day + 1) =
      daysBeforeYear d.year + cumDays d.year (d.month - 1) + d.day + 1
    omega
  · rename_i hday
    have hde : d.day = daysInMonth d.year d.month := by omega
    split
    · rename_i hmon
      show daysBeforeYear d.year + cumDays d.year (d.month + 1 - 1) + 1 =
        daysBeforeYear d.year + cumDays d.year (d.month - 1) + d.day + 1
      rw [show d.month + 1 - 1 = d.month from rfl, cumDays_succ_sub_one hm1]
      omega
    · rename_i hmon
      have hm12 : d.month = 12 := by omega
      show daysBeforeYear (d.year + 1) + cumDays (d.year + 1) (1 - 1) + 1 =
        daysBeforeYear d.year + cumDays d.year (d.month - 1) + d.day + 1
      have h1 : cumDays (d.year + 1) (1 - 1) = 0 := rfl
      have h2 : cumDays d.year 12 = cumDays d.year 11 + 31 := rfl
      have h3 := cumDays_twelve d.year
      have h4 := daysBeforeYear_succ d.year hy
      have h5 : daysInMonth d.year 12 = 31 := rfl
      rw [h1, hm12, hde, hm12, h5, show (12 : Nat) - 1 = 11 from rfl]
      cases hL : isLeap d.year <;> simp [hL] at h3 h4 <;> omega

theorem dateRangeAux_length (n : Nat) (d : Date) : (dateRangeAux n d).length = n + 1 := by
  induction n generalizing d with
  | zero => rfl
  | succ n ih => simp [dateRangeAux, ih]

theorem dateRangeAux_get (n : Nat) (d : Date) (hd : d.Valid) :
    ∀ i (h : i < (dateRangeAux n d).length),
      ((dateRangeAux n d).get ⟨i, h⟩).Valid ∧
      ((dateRangeAux n d).get ⟨i, h⟩).toOrdinal = d.toOrdinal + i := by
  induction n generalizing d with
  | zero =>
    intro i h
    have hi : i = 0 := by
      have := dateRangeAux_length 0 d
      omega
    subst hi
    exact ⟨hd, rfl⟩
  | succ n ih =>
    intro i h
    cases i with
    | zero => exact ⟨hd, rfl⟩
    | succ i =>
      have h' : i < (dateRangeAux n (nextDate d)).length := by
        have h1 := dateRangeAux_length (n + 1) d
        have h2 := dateRangeAux_length n (nextDate d)
        omega
      have hrec := ih (nextDate d) (nextDate_valid hd) i h'
      have hget : (dateRangeAux (n + 1) d).get ⟨i + 1, h⟩ =
          (dateRangeAux n (nextDate d)).get ⟨i, h'⟩ := rfl
      refine ⟨hget ▸ hrec.1, ?_⟩
      rw [hget, hrec.2, toOrdinal_nextDate hd]
      omega

theorem date_range_length {s e : Date} (hse : s.toOrdinal ≤ e.toOrdinal) :
    (date_range s e).length = e.toOrdinal - s.toOrdinal + 1 := by
  unfold date_range
  rw [if_pos hse, dateRangeAux_length]

theorem date_range_get {s e : Date} (hs : s.Valid) (hse : s.toOrdinal ≤ e.toOrdinal) :
    ∀ i (h : i < (date_range s e).length),
      ((date_range s e).get ⟨i, h⟩).Valid ∧
      ((date_range s e).get ⟨i, h⟩).toOrdinal = s.toOrdinal + i := by
  have hEq : date_range s e = dateRangeAux (e.toOrdinal - s.toOrdinal) s := by
    unfold date_range; rw [if_pos hse]
  rw [hEq]
  exact dateRangeAux_get _ s hs

theorem mkValidatedDate_valid {y m dd : Nat} {d : Date}
    (h : mkValidatedDate y m dd = some d) : d.Valid := by
  unfold mkValidatedDate at h
  split at h
  · rename_i hcond
    cases h
    exact ⟨hcond.1, hcond.2.2.1, hcond.2.2.2.1, hcond.2.2.2.2.1, hcond.2.2.2.2.2⟩
  · cases h

theorem strptimeYmd_valid {s : String} {d : Date} (h : strptimeYmd s = some d) :
    d.Valid := by
  unfold strptimeYmd at h
  split at h
  · split at h
    · split at h
      · exact mkValidatedDate_valid h
      · cases h
    · cases h
  · cases h

/-! Section: helper lemmas about traces and validation -/

theorem httpGets_fetchTrace (o : Oracle) (d : Date) :
    httpGets (fetchTrace o d) = [Effect.httpGet (fetchUrl d)] := by
  unfold httpGets fetchTrace
  cases o d <;> simp [Effect.isHttpGet]

theorem httpGets_process_data_trace (o : Oracle) (s e : Date) :
    httpGets (process_data_trace o s e) =
      (date_range s e).map fun d => Effect.httpGet (fetchUrl d) := by
  unfold process_data_trace
  induction date_range s e with
  | nil => rfl
  | cons d ds ih =>
    rw [List.flatMap_cons, List.map_cons]
    unfold httpGets at ih ⊢
    rw [List.filter_append, ih,
      show (fetchTrace o d).filter Effect.isHttpGet = [Effect.httpGet (fetchUrl d)] from
        httpGets_fetchTrace o d]
    rfl

theorem savedFiles_append (a b : List Effect) :
    savedFiles (a ++ b) = savedFiles a ++ savedFiles b := by
  unfold savedFiles
  rw [List.flatMap_append]

theorem savedFiles_fetchTrace (o : Oracle) (d : Date) :
    savedFiles (fetchTrace o d) = [] := by
  unfold savedFiles fetchTrace
  cases o d <;> rfl

theorem savedFiles_process_data_trace (o : Oracle) (s e : Date) :
    savedFiles (process_data_trace o s e) = [] := by
  unfold process_data_trace
  induction date_range s e with
  | nil => rfl
  | cons d ds ih =>
    rw [List.flatMap_cons, savedFiles_append, savedFiles_fetchTrace, ih]
    rfl

theorem validate_dates_none_iff (today : Date) (ss es : String) :
    validate_dates today ss es = none ↔
      ∃ s e, strptimeYmd ss = some s ∧ strptimeYmd es = some e ∧
        s.toOrdinal < today.toOrdinal ∧ e.toOrdinal < today.toOrdinal ∧
        s.toOrdinal < e.toOrdinal ∧ API_START_DATE.toOrdinal ≤ s.toOrdinal ∧
        e.toOrdinal - s.toOrdinal ≤ MAX_DAYS_RANGE := by
  unfold validate_dates
  cases hs : strptimeYmd ss with
  | none => simp [hs]
  | some s =>
    cases he : strptimeYmd es with
    | none => simp [hs, he]
    | some e =>
      simp only [hs, he, Option.some.injEq]
      constructor
      · intro h
        split_ifs at h with h1 h2 h3 h4
        exact ⟨s, e, rfl, rfl, by omega, by omega, by omega, by omega, by omega⟩
      · rintro ⟨s', e', hs', he', c1, c2, c3, c4, c5⟩
        cases hs'
        cases he'
        split_ifs with h1 h2 h3 h4
        · omega
        · omega
        · omega
        · omega
        · rfl

/-- Claim C6: for every date `d`, the URL requested by `fetch_daily_articles`
is exactly the Wikipedia top-pageviews endpoint
`https://wikimedia.org/api/rest_v1/metrics/pageviews/top/en.wikipedia.org/all-access/YYYY/MM/DD`
with the zero-padded year, month and day of `d`. -/

theorem claim_C6 (d : Date) : fetchUrl d = specTopUrl d.year d.month d.day := by
  apply String.ext
  simp only [fetchUrl, specTopUrl, API_BASE_URL, PROJECT, ACCESS_MODE, Date.fmtSlash,
    format2, format4, decDigit, specPad2, specPad4, specDigitChar, String.data_append,
    List.append_assoc]
  rfl

/-- Claim C3: `fetch_daily_articles` never propagates an exception: on a 404,
a timeout, a connection error, or any other exception it returns the empty
list, and every day in the range is still fetched (one GET per day of the
range regardless of failures). -/

theorem claim_C3 (o : Oracle) (d : Date) (hfail : (o d).isOk = false) :
    fetch_daily_articles o d = [] ∧
      ∀ s e, httpGets (process_data_trace o s e) =
        (date_range s e).map fun x => Effect.httpGet (fetchUrl x) := by
  refine ⟨?_, fun s e => httpGets_process_data_trace o s e⟩
  unfold fetch_daily_articles
  cases h : o d
  · rw [h] at hfail
    simp [Response.isOk] at hfail
  all_goals rfl

/-- Witness for C3 at a concrete oracle that times out on every date. -/

theorem claim_C3_witness :
    ((fun _ => Response.timeout : Oracle) ⟨2023, 1, 5⟩).isOk = false ∧
      fetch_daily_articles (fun _ => Response.timeout) ⟨2023, 1, 5⟩ = [] :=
  ⟨by decide, (claim_C3 (fun _ => Response.timeout) ⟨2023, 1, 5⟩ (by decide)).1⟩

/-- Claim C4: `validate_dates` returns `None` iff both arguments parse in
`%Y%m%d` format, both dates are strictly before today, the end date is
strictly after the start date, the start date is on or after 2015-07-01 and
the range is at most 365 days; otherwise it returns the message of the first
failing check in that fixed order, and `main` then prints the message and
stops before any HTTP request. -/

theorem claim_C4 (o : Oracle) (today : Date) (ss es : String) :
    (validate_dates today ss es = none ↔
      ∃ s e, strptimeYmd ss = some s ∧ strptimeYmd es = some e ∧
        s.toOrdinal < today.toOrdinal ∧ e.toOrdinal < today.toOrdinal ∧
        s.toOrdinal < e.toOrdinal ∧ API_START_DATE.toOrdinal ≤ s.toOrdinal ∧
        e.toOrdinal - s.toOrdinal ≤ MAX_DAYS_RANGE) ∧
    validate_dates today ss es = firstFailingCheck today ss es ∧
    (∀ msg, validate_dates today ss es = some msg →
      main o today ss es = [Effect.printOut msg] ∧
      httpGets (main o today ss es) = []) := by
  refine ⟨validate_dates_none_iff today ss es, ?_, ?_⟩
  · unfold validate_dates firstFailingCheck
    cases hs : strptimeYmd ss with
    | none =>
      cases he : strptimeYmd es <;> rfl
    | some s =>
      cases he : strptimeYmd es with
      | none => rfl
      | some e =>
        dsimp only
        split_ifs with h1 h2 h3 h4 h5 h6 h7 h8 <;> first | rfl | omega
  · intro msg hmsg
    unfold main
    rw [hmsg]
    exact ⟨rfl, rfl⟩

/-- Witness for C4: a concrete rejected pair (end before start) and a concrete
accepted pair, with the resulting `main` behaviour. -/

theorem claim_C4_witness :
    validate_dates ⟨2025, 10, 12⟩ ("20250110") ("20250101") =
      some ("Error: End date must be > start date") ∧
    main (fun _ => Response.timeout) ⟨2025, 10, 12⟩ ("20250110") ("20250101") =
      [Effect.printOut ("Error: End date must be > start date")] :=
  ⟨by decide,
    ((claim_C4 (fun _ => Response.timeout) ⟨2025, 10, 12⟩ ("20250110") ("20250101")).2.2
      _ (by decide)).1⟩

theorem daysInMonth_le_31 (y m : Nat) : daysInMonth y m ≤ 31 := by
  unfold daysInMonth
  split
  · split <;> omega
  · split <;> omega

/-- On the strings that parse at all under `pd.date_range` (8-digit
`YYYYMMDD`), `strptime('%Y%m%d')` parses them to the same date. -/
theorem pdParseYmd_strptimeYmd {s : String} {d : Date}
    (h : pdParseYmd s = some d) : strptimeYmd s = some d := by
  unfold pdParseYmd at h
  unfold strptimeYmd
  revert h
  generalize s.data = cs
  intro h
  rcases cs with _ | ⟨y1, _ | ⟨y2, _ | ⟨y3, _ | ⟨y4, _ | ⟨m1, _ | ⟨m2, _ |
    ⟨d1, _ | ⟨d2, _ | ⟨x, rest⟩⟩⟩⟩⟩⟩⟩⟩⟩
  any_goals exact Option.noConfusion h
  dsimp only at h
  split at h
  · rename_i hdig
    have hcond : 1 ≤ 1000 * digitVal y1 + 100 * digitVal y2 + 10 * digitVal y3 +
          digitVal y4 ∧
        1000 * digitVal y1 + 100 * digitVal y2 + 10 * digitVal y3 + digitVal y4 ≤ 9999 ∧
        1 ≤ 10 * digitVal m1 + digitVal m2 ∧ 10 * digitVal m1 + digitVal m2 ≤ 12 ∧
        1 ≤ 10 * digitVal d1 + digitVal d2 ∧
        10 * digitVal d1 + digitVal d2 ≤
          daysInMonth (1000 * digitVal y1 + 100 * digitVal y2 + 10 * digitVal y3 +
            digitVal y4) (10 * digitVal m1 + digitVal m2) := by
      by_contra hcn
      unfold mkValidatedDate at h
      rw [if_neg hcn] at h
      exact Option.noConfusion h
    rw [if_pos hdig]
    show (match parseMonthDay [m1, m2, d1, d2] with
      | some (m, dd) =>
        mkValidatedDate
          (1000 * digitVal y1 + 100 * digitVal y2 + 10 * digitVal y3 + digitVal y4) m dd
      | none => none) = some d
    rw [show parseMonthDay [m1, m2, d1, d2] =
        some (10 * digitVal m1 + digitVal m2, 10 * digitVal d1 + digitVal d2) by
      unfold parseMonthDay
      dsimp only
      rw [if_pos]
      · rfl
      · exact ⟨hcond.2.2.1, hcond.2.2.2.1, hcond.2.2.2.2.1,
          le_trans hcond.2.2.2.2.2 (daysInMonth_le_31 _ _)⟩]
    exact h
  · exact Option.noConfusion h

theorem httpGets_append (a b : List Effect) :
    httpGets (a ++ b) = httpGets a ++ httpGets b := by
  unfold httpGets
  rw [List.filter_append]

/-- Claim C1, amended: for every pair of 8-digit arguments accepted by
`validate_dates` — the forms `pd.date_range` itself also parses; see
`claim_C1_counterexample` for the 6/7-digit short forms — the run performs
exactly one HTTP GET per calendar day of the inclusive range, in
chronological order (day `i` of the range has ordinal `start + i`), and each
`fetch_daily_articles` call performs exactly one `requests.get`. -/

theorem claim_C1 (o : Oracle) (today : Date) (ss es : String) (s e : Date)
    (hs : pdParseYmd ss = some s) (he : pdParseYmd es = some e)
    (hv : validate_dates today ss es = none) :
    httpGets (main o today ss es) =
        ((date_range s e).map fun d => Effect.httpGet (fetchUrl d)) ∧
      httpGets (process_data_trace o s e) =
        ((date_range s e).map fun d => Effect.httpGet (fetchUrl d)) ∧
      (date_range s e).length = e.toOrdinal - s.toOrdinal + 1 ∧
      s.toOrdinal < e.toOrdinal ∧
      (∀ i (h : i < (date_range s e).length),
        ((date_range s e).get ⟨i, h⟩).toOrdinal = s.toOrdinal + i) ∧
      ∀ o2 d2, httpGets (fetchTrace o2 d2) = [Effect.httpGet (fetchUrl d2)] := by
  have hs2 := pdParseYmd_strptimeYmd hs
  have he2 := pdParseYmd_strptimeYmd he
  obtain ⟨s', e', hs', he', c1, c2, c3, c4, c5⟩ :=
    (validate_dates_none_iff today ss es).mp hv
  rw [hs2] at hs'
  rw [he2] at he'
  cases hs'
  cases he'
  have hmain : httpGets (main o today ss es) = httpGets (process_data_trace o s e) := by
    unfold main process_data_strings_trace process_data_strings
    simp only [hv, hs, he]
    cases hp : process_data o s e <;>
      simp [hp, httpGets_append, httpGets, Effect.isHttpGet, create_visualization_trace]
  refine ⟨?_, httpGets_process_data_trace o s e, date_range_length (le_of_lt c3), c3,
    ?_, httpGets_fetchTrace⟩
  · rw [hmain]
    exact httpGets_process_data_trace o s e
  · intro i h
    exact (date_range_get (strptimeYmd_valid hs2) (le_of_lt c3) i h).2

/-- Witness for the amended C1 at a concrete accepted range of three days. -/

theorem claim_C1_witness :
    pdParseYmd ("20250101") = some ⟨2025, 1, 1⟩ ∧
    pdParseYmd ("20250103") = some ⟨2025, 1, 3⟩ ∧
    validate_dates ⟨2025, 10, 12⟩ ("20250101") ("20250103") = none ∧
    (date_range ⟨2025, 1, 1⟩ ⟨2025, 1, 3⟩).length =
      (⟨2025, 1, 3⟩ : Date).toOrdinal - (⟨2025, 1, 1⟩ : Date).toOrdinal + 1 :=
  ⟨by decide, by decide, by decide,
    (claim_C1 (fun _ => Response.timeout) ⟨2025, 10, 12⟩ ("20250101") ("20250103")
      ⟨2025, 1, 1⟩ ⟨2025, 1, 3⟩ (by decide) (by decide) (by decide)).2.2.1⟩

/-- Counterexample to claim C1 as stated: the argument pair
`('2025101', '2025105')` is accepted by `validate_dates` (the `strptime`
regex parses the 7-digit short forms as 2025-10-01 and 2025-10-05), yet the
run performs zero HTTP GET requests: `pd.date_range` raises an uncaught
`DateParseError` before the fetch loop starts, instead of one GET for each
of the five days of the accepted range. -/

theorem claim_C1_counterexample :
    validate_dates ⟨2025, 10, 12⟩ ("2025101") ("2025105") = none ∧
    strptimeYmd ("2025101") = some ⟨2025, 10, 1⟩ ∧
    strptimeYmd ("2025105") = some ⟨2025, 10, 5⟩ ∧
    (date_range ⟨2025, 10, 1⟩ ⟨2025, 10, 5⟩).length = 5 ∧
    main (fun _ => Response.ok [⟨("X"), 5⟩]) ⟨2025, 10, 12⟩ ("2025101") ("2025105") =
      [Effect.crash] ∧
    httpGets (main (fun _ => Response.ok [⟨("X"), 5⟩]) ⟨2025, 10, 12⟩
      ("2025101") ("2025105")) = [] := by
  decide

/-- Claim C5: in every run where at least one article row was fetched (the
arguments validated, the range built by `pd.date_range` — a run that crashes
there fetches no row at all — and the accumulated row list non-empty), the
program renders the faceted chart and saves it to `top_articles.png`. -/

theorem claim_C5 (o : Oracle) (today : Date) (ss es : String) (s e : Date)
    (hs : pdParseYmd ss = some s) (he : pdParseYmd es = some e)
    (hv : validate_dates today ss es = none) (hne : allRows o s e ≠ []) :
    Effect.renderChart ∈ main o today ss es ∧
      Effect.saveFile ("top_articles.png") ∈ main o today ss es := by
  have hp : ∃ v, process_data o s e = some v := by
    unfold process_data
    rw [if_neg (by simpa using hne)]
    exact ⟨_, rfl⟩
  obtain ⟨v, hp⟩ := hp
  unfold main process_data_strings_trace process_data_strings
  simp only [hv, hs, he, hp]
  constructor <;>
  · apply List.mem_append_right
    simp [create_visualization_trace]

/-- Witness for C5 at a concrete run with one fetched row. -/

theorem claim_C5_witness :
    allRows (fun _ => Response.ok [⟨("X"), 5⟩]) ⟨2025, 1, 1⟩ ⟨2025, 1, 3⟩ ≠ [] ∧
    Effect.saveFile ("top_articles.png") ∈
      main (fun _ => Response.ok [⟨("X"), 5⟩]) ⟨2025, 10, 12⟩ ("20250101") ("20250103") :=
  ⟨by decide,
    (claim_C5 (fun _ => Response.ok [⟨("X"), 5⟩]) ⟨2025, 10, 12⟩ ("20250101") ("20250103")
      ⟨2025, 1, 1⟩ ⟨2025, 1, 3⟩ (by decide) (by decide) (by decide) (by decide)).2⟩

/-- Claim C7: `process_data` returns the no-data value iff every day in the
range yielded an empty article list, and in that case `main` prints the
no-data message and terminates without writing any file. -/

theorem claim_C7 (o : Oracle) (today : Date) (ss es : String) (s e : Date)
    (hs : pdParseYmd ss = some s) (he : pdParseYmd es = some e)
    (hv : validate_dates today ss es = none) :
    (process_data o s e = none ↔
      ∀ d ∈ date_range s e, fetch_daily_articles o d = []) ∧
    (process_data o s e = none →
      main o today ss es = process_data_trace o s e ++
        [Effect.printOut ("No data found for the specified date range")] ∧
      savedFiles (main o today ss es) = []) := by
  have h1 : process_data o s e = none ↔ allRows o s e = [] := by
    unfold process_data
    split <;> rename_i hsp
    · simp only [List.isEmpty_eq_true] at hsp
      simp [hsp]
    · simp only [List.isEmpty_eq_true] at hsp
      simp [hsp]
  have h2 : allRows o s e = [] ↔ ∀ d ∈ date_range s e, fetch_daily_articles o d = [] := by
    unfold allRows
    rw [List.flatMap_eq_nil_iff]
    constructor
    · intro h d hd
      have := h d hd
      simpa using this
    · intro h d hd
      simp [h d hd]
  refine ⟨h1.trans h2, ?_⟩
  intro hnone
  have hmain : main o today ss es = process_data_trace o s e ++
      [Effect.printOut ("No data found for the specified date range")] := by
    unfold main process_data_strings_trace process_data_strings
    simp only [hv, hs, he, hnone]
  refine ⟨hmain, ?_⟩
  rw [hmain, savedFiles_append, savedFiles_process_data_trace]
  rfl

/-- Witness for C7 at a concrete run in which every request is a 404. -/

theorem claim_C7_witness :
    process_data (fun _ => Response.notFound) ⟨2025, 1, 1⟩ ⟨2025, 1, 3⟩ = none ∧
    pdParseYmd ("20250101") = some ⟨2025, 1, 1⟩ ∧
    savedFiles (main (fun _ => Response.notFound) ⟨2025, 10, 12⟩
      ("20250101") ("20250103")) = [] :=
  ⟨by decide, by decide,
    ((claim_C7 (fun _ => Response.notFound) ⟨2025, 10, 12⟩ ("20250101") ("20250103")
      ⟨2025, 1, 1⟩ ⟨2025, 1, 3⟩ (by decide) (by decide) (by decide)).2 (by decide)).2⟩

/-- Claim C9: across every run, the only file ever written is
`top_articles.png`; a run that fails validation, or that finds no data,
writes no file at all. -/

theorem claim_C9 (o : Oracle) (today : Date) (ss es : String) :
    (∀ n ∈ savedFiles (main o today ss es), n = "top_articles.png") ∧
    (∀ msg, validate_dates today ss es = some msg →
      savedFiles (main o today ss es) = []) ∧
    (∀ s e, strptimeYmd ss = some s → strptimeYmd es = some e →
      process_data o s e = none → savedFiles (main o today ss es) = []) := by
  unfold main process_data_strings_trace process_data_strings
  cases hv : validate_dates today ss es with
  | some msg =>
    dsimp only
    refine ⟨?_, fun _ _ => rfl, fun _ _ _ _ _ => rfl⟩
    intro n hn
    cases hn
  | none =>
    cases hps : pdParseYmd ss with
    | none =>
      refine ⟨?_, fun _ h => Option.noConfusion h, fun s' e' _ _ _ => ?_⟩
      · intro n hn
        cases hpe : pdParseYmd es <;> rw [hpe] at hn <;> dsimp only at hn <;> cases hn
      · cases hpe : pdParseYmd es <;> rfl
    | some s =>
      cases hpe : pdParseYmd es with
      | none =>
        dsimp only
        refine ⟨?_, fun _ h => Option.noConfusion h, fun _ _ _ _ _ => rfl⟩
        intro n hn
        cases hn
      | some e =>
        dsimp only
        cases hp : process_data o s e with
        | none =>
          dsimp only
          have hsv : savedFiles (process_data_trace o s e ++
              [Effect.printOut ("No data found for the specified date range")]) = [] := by
            rw [savedFiles_append, savedFiles_process_data_trace]
            rfl
          refine ⟨?_, fun _ h => Option.noConfusion h, fun _ _ _ _ _ => hsv⟩
          intro n hn
          rw [hsv] at hn
          cases hn
        | some v =>
          dsimp only
          have hsv : savedFiles (process_data_trace o s e ++ create_visualization_trace) =
              [("top_articles.png")] := by
            rw [savedFiles_append, savedFiles_process_data_trace]
            rfl
          refine ⟨?_, fun _ h => Option.noConfusion h, ?_⟩
          · intro n hn
            rw [hsv] at hn
            simpa using hn
          · intro s' e' hs' he' hnone
            rw [pdParseYmd_strptimeYmd hps] at hs'
            cases hs'
            rw [pdParseYmd_strptimeYmd hpe] at he'
            cases he'
            rw [hp] at hnone
            exact Option.noConfusion hnone

/-- Witness for C9 at a concrete successful run: the single written file is
the chart. -/

theorem claim_C9_witness :
    ("top_articles.png") ∈ savedFiles (main (fun _ => Response.ok [⟨("X"), 5⟩])
      ⟨2025, 10, 12⟩ ("20250101") ("20250103")) ∧
    ("top_articles.png" : String) = "top_articles.png" :=
  ⟨by decide,
    (claim_C9 (fun _ => Response.ok [⟨("X"), 5⟩]) ⟨2025, 10, 12⟩
      ("20250101") ("20250103")).1 _ (by decide)⟩

/-! Section: properties of the top-20 selection (claim C2) -/

theorem topArticles_nodup (rows : List Row) : (topArticles rows).Nodup := by
  unfold topArticles sortedArticles distinctArticles
  apply List.Nodup.sublist (List.take_sublist _ _)
  exact (List.perm_insertionSort _ _).nodup_iff.mpr
    ((List.perm_insertionSort _ _).nodup_iff.mpr (List.nodup_dedup _))

theorem topArticles_length (rows : List Row) :
    (topArticles rows).length = min TOP_ARTICLES_COUNT (nuniqueArticles rows) := by
  unfold topArticles sortedArticles nuniqueArticles
  rw [List.length_take, List.length_insertionSort, List.length_insertionSort]

theorem topArticles_subset (rows : List Row) :
    ∀ a ∈ topArticles rows, a ∈ distinctArticles rows := by
  intro a ha
  unfold topArticles at ha
  have h1 := List.take_subset _ _ ha
  rw [List.mem_insertionSort] at h1
  unfold sortedArticles at h1
  rw [List.mem_insertionSort] at h1
  exact h1

theorem topArticles_dominant (rows : List Row) :
    ∀ a ∈ topArticles rows, ∀ b ∈ distinctArticles rows, b ∉ topArticles rows →
      totalViewsOf rows b ≤ totalViewsOf rows a := by
  intro a ha b hb hbn
  haveI hTot : IsTotal String fun x y => totalViewsOf rows y ≤ totalViewsOf rows x :=
    ⟨fun x y => Nat.le_total (totalViewsOf rows y) (totalViewsOf rows x)⟩
  haveI hTrans : IsTrans String fun x y => totalViewsOf rows y ≤ totalViewsOf rows x :=
    ⟨fun x y z hxy hyz => le_trans hyz hxy⟩
  have hpw : (List.insertionSort (fun x y => totalViewsOf rows y ≤ totalViewsOf rows x)
      (sortedArticles rows)).Pairwise
      (fun x y => totalViewsOf rows y ≤ totalViewsOf rows x) :=
    List.sorted_insertionSort _ (sortedArticles rows)
  have hM := List.take_append_drop TOP_ARTICLES_COUNT
    (List.insertionSort (fun x y => totalViewsOf rows y ≤ totalViewsOf rows x)
      (sortedArticles rows))
  rw [← hM, List.pairwise_append] at hpw
  have hb' : b ∈ List.insertionSort (fun x y => totalViewsOf rows y ≤ totalViewsOf rows x)
      (sortedArticles rows) := by
    rw [List.mem_insertionSort]
    unfold sortedArticles
    rw [List.mem_insertionSort]
    exact hb
  rw [← hM, List.mem_append] at hb'
  have hbd : b ∈ (List.insertionSort (fun x y => totalViewsOf rows y ≤ totalViewsOf rows x)
      (sortedArticles rows)).drop TOP_ARTICLES_COUNT := by
    rcases hb' with h | h
    · exact absurd h (by unfold topArticles at hbn; exact hbn)
    · exact h
  exact hpw.2.2 a (by unfold topArticles at ha; exact ha) b hbd

/-- Claim C2: the dataframe returned by `process_data` is exactly the rows
whose article is in the selected top list; that list has
`min 20 (number of distinct articles)` entries, every article in it has a
total-views sum at least that of every article outside it, and the returned
dataframe therefore holds at most 20 distinct articles. -/

theorem claim_C2 (o : Oracle) (s e : Date) (dfTop : List Row) (m : Nat × Rat × Nat)
    (h : process_data o s e = some (dfTop, m)) :
    dfTop = ((allRows o s e).filter
        fun r => (topArticles (allRows o s e)).contains r.article) ∧
      (topArticles (allRows o s e)).length =
        min TOP_ARTICLES_COUNT (nuniqueArticles (allRows o s e)) ∧
      (∀ a ∈ topArticles (allRows o s e), ∀ b ∈ distinctArticles (allRows o s e),
        b ∉ topArticles (allRows o s e) →
        totalViewsOf (allRows o s e) b ≤ totalViewsOf (allRows o s e) a) ∧
      nuniqueArticles dfTop ≤ TOP_ARTICLES_COUNT := by
  have hdf : dfTop = ((allRows o s e).filter
      fun r => (topArticles (allRows o s e)).contains r.article) := by
    unfold process_data at h
    split at h
    · exact Option.noConfusion h
    · cases h
      rfl
  refine ⟨hdf, topArticles_length _, topArticles_dominant _, ?_⟩
  rw [hdf]
  have hsub : ∀ x ∈ distinctArticles ((allRows o s e).filter
      fun r => (topArticles (allRows o s e)).contains r.article),
      x ∈ topArticles (allRows o s e) := by
    intro x hx
    unfold distinctArticles at hx
    rw [List.mem_dedup] at hx
    obtain ⟨r, hr, rfl⟩ := List.mem_map.mp hx
    have hc := (List.mem_filter.mp hr).2
    simpa using hc
  unfold nuniqueArticles
  calc (distinctArticles ((allRows o s e).filter
          fun r => (topArticles (allRows o s e)).contains r.article)).length
      = (distinctArticles ((allRows o s e).filter
          fun r => (topArticles (allRows o s e)).contains r.article)).toFinset.card :=
        (List.toFinset_card_of_nodup (List.nodup_dedup _)).symm
    _ ≤ (topArticles (allRows o s e)).toFinset.card :=
        Finset.card_le_card fun x hx =>
          List.mem_toFinset.mpr (hsub x (List.mem_toFinset.mp hx))
    _ ≤ (topArticles (allRows o s e)).length := List.toFinset_card_le _
    _ ≤ TOP_ARTICLES_COUNT := by
        rw [topArticles_length]
        exact Nat.min_le_left _ _

/-- Witness for C2 at a concrete two-day fetch with three articles. -/

theorem claim_C2_witness :
    process_data
        (fun d => if d.day == 1 then Response.ok [⟨("A"), 10⟩, ⟨("B"), 5⟩]
          else Response.ok [⟨("A"), 3⟩, ⟨("C"), 7⟩]) ⟨2023, 1, 1⟩ ⟨2023, 1, 2⟩ =
      some ([⟨("A"), 10, ⟨2023, 1, 1⟩⟩, ⟨("B"), 5, ⟨2023, 1, 1⟩⟩,
        ⟨("A"), 3, ⟨2023, 1, 2⟩⟩, ⟨("C"), 7, ⟨2023, 1, 2⟩⟩],
        (10, mkRat 25 2, 3)) ∧
    nuniqueArticles [⟨("A"), 10, ⟨2023, 1, 1⟩⟩, ⟨("B"), 5, ⟨2023, 1, 1⟩⟩,
        ⟨("A"), 3, ⟨2023, 1, 2⟩⟩, ⟨("C"), 7, ⟨2023, 1, 2⟩⟩] ≤ TOP_ARTICLES_COUNT :=
  ⟨by decide,
    (claim_C2
      (fun d => if d.day == 1 then Response.ok [⟨("A"), 10⟩, ⟨("B"), 5⟩]
        else Response.ok [⟨("A"), 3⟩, ⟨("C"), 7⟩]) ⟨2023, 1, 1⟩ ⟨2023, 1, 2⟩
      [⟨("A"), 10, ⟨2023, 1, 1⟩⟩, ⟨("B"), 5, ⟨2023, 1, 1⟩⟩,
        ⟨("A"), 3, ⟨2023, 1, 2⟩⟩, ⟨("C"), 7, ⟨2023, 1, 2⟩⟩]
      (10, mkRat 25 2, 3) (by decide)).2.2.2⟩

theorem foldl_max_eq_foldr (l : List Nat) (acc : Nat) :
    l.foldl Nat.max acc = Nat.max acc (l.foldr Nat.max 0) := by
  induction l generalizing acc with
  | nil => simp
  | cons x xs ih =>
    rw [List.foldl_cons, List.foldr_cons, ih]
    simp only [Nat.max_def]
    split_ifs <;> omega

theorem maxViews_eq_spec (rows : List Row) : maxViews rows = specMaxRowViews rows := by
  unfold maxViews specMaxRowViews
  rw [foldl_max_eq_foldr, List.foldr_map]
  simp only [Nat.max_def]
  split_ifs <;> omega

theorem sum_filter_add_sum_filter_not (rows : List Row) (p : Row → Bool) :
    ((rows.filter p).map Row.views).sum +
      ((rows.filter fun r => !p r).map Row.views).sum = (rows.map Row.views).sum := by
  have hperm := (List.filter_append_perm p rows).map Row.views
  rw [List.map_append] at hperm
  rw [← hperm.sum_eq, List.sum_append]

theorem sum_perDayTotal (ds : List Date) (rows : List Row) (hnd : ds.Nodup)
    (hcov : ∀ r ∈ rows, r.date ∈ ds) :
    (ds.map (perDayTotal rows)).sum = (rows.map Row.views).sum := by
  induction ds generalizing rows with
  | nil =>
    cases rows with
    | nil => rfl
    | cons r rs => exact absurd (hcov r (List.mem_cons_self _ _)) (List.not_mem_nil _)
  | cons d ds ih =>
    have hdnot : d ∉ ds := (List.nodup_cons.mp hnd).1
    have hnd' : ds.Nodup := (List.nodup_cons.mp hnd).2
    have hcongr : ds.map (perDayTotal rows) =
        ds.map (perDayTotal (rows.filter fun r => !(r.date == d))) := by
      apply List.map_congr_left
      intro d' hd'
      unfold perDayTotal
      rw [List.filter_filter]
      have hf : (rows.filter fun a => a.date == d' && !(a.date == d)) =
          rows.filter fun r => r.date == d' := by
        apply List.filter_congr
        intro r hr
        cases hrd : r.date == d'
        · simp [hrd]
        · have hrd' : r.date = d' := by simpa using hrd
          have hne : (r.date == d) = false := by
            simp only [beq_eq_false_iff_ne, ne_eq, hrd']
            intro hc
            exact hdnot (hc ▸ hd')
          simp [hrd, hne]
      rw [hf]
    rw [List.map_cons, List.sum_cons, hcongr,
      ih (rows.filter fun r => !(r.date == d)) hnd' ?_]
    · exact sum_filter_add_sum_filter_not rows (fun r => r.date == d)
    · intro r hr
      obtain ⟨hrm, hrp⟩ := List.mem_filter.mp hr
      have := hcov r hrm
      rw [List.mem_cons] at this
      rcases this with h | h
      · rw [Bool.not_eq_eq_eq_not, Bool.not_true, beq_eq_false_iff_ne] at hrp
        exact absurd h hrp
      · exact h

theorem meanDailyViews_eq_spec (rows : List Row) :
    meanDailyViews rows = specMeanDailyTotal rows := by
  unfold meanDailyViews specMeanDailyTotal
  rw [sum_perDayTotal (distinctDates rows) rows (List.nodup_dedup _) ?_]
  intro r hr
  unfold distinctDates
  rw [List.mem_dedup]
  exact List.mem_map_of_mem Row.date hr

theorem nunique_eq_spec (rows : List Row) :
    nuniqueArticles rows = specArticleCount rows := by
  unfold nuniqueArticles specArticleCount distinctArticles
  exact (List.card_toFinset _).symm

/-- Claim C8: the three headline metrics returned by `process_data` — the
maximum single-row view count, the mean over days of the per-day total views,
and the number of distinct article names — are computed over all fetched
rows, not over the top-20 subset. -/

theorem claim_C8 (o : Oracle) (s e : Date) (dfTop : List Row)
    (mx : Nat) (mean : Rat) (nu : Nat)
    (h : process_data o s e = some (dfTop, (mx, mean, nu))) :
    mx = specMaxRowViews (allRows o s e) ∧
      mean = specMeanDailyTotal (allRows o s e) ∧
      nu = specArticleCount (allRows o s e) := by
  unfold process_data at h
  split at h
  · exact Option.noConfusion h
  · cases h
    exact ⟨maxViews_eq_spec _, meanDailyViews_eq_spec _, nunique_eq_spec _⟩

/-- Witness for C8: at the concrete two-day fetch the metrics are those of
all four rows (max 10, mean 25/2, three distinct articles), although the
per-article totals differ. -/

theorem claim_C8_witness :
    process_data
        (fun d => if d.day == 1 then Response.ok [⟨("A"), 10⟩, ⟨("B"), 5⟩]
          else Response.ok [⟨("A"), 3⟩, ⟨("C"), 7⟩]) ⟨2023, 1, 1⟩ ⟨2023, 1, 2⟩ =
      some ([⟨("A"), 10, ⟨2023, 1, 1⟩⟩, ⟨("B"), 5, ⟨2023, 1, 1⟩⟩,
        ⟨("A"), 3, ⟨2023, 1, 2⟩⟩, ⟨("C"), 7, ⟨2023, 1, 2⟩⟩],
        (10, mkRat 25 2, 3)) ∧
    (3 : Nat) = specArticleCount (allRows
      (fun d => if d.day == 1 then Response.ok [⟨("A"), 10⟩, ⟨("B"), 5⟩]
        else Response.ok [⟨("A"), 3⟩, ⟨("C"), 7⟩]) ⟨2023, 1, 1⟩ ⟨2023, 1, 2⟩) :=
  ⟨by decide,
    (claim_C8
      (fun d => if d.day == 1 then Response.ok [⟨("A"), 10⟩, ⟨("B"), 5⟩]
        else Response.ok [⟨("A"), 3⟩, ⟨("C"), 7⟩]) ⟨2023, 1, 1⟩ ⟨2023, 1, 2⟩
      [⟨("A"), 10, ⟨2023, 1, 1⟩⟩, ⟨("B"), 5, ⟨2023, 1, 1⟩⟩,
        ⟨("A"), 3, ⟨2023, 1, 2⟩⟩, ⟨("C"), 7, ⟨2023, 1, 2⟩⟩]
      10 (mkRat 25 2) 3 (by decide)).2.2⟩

end WikiParser
